import Mathlib

/-!
Verification of `web_blast.py` (rehia/fasta-blast): a shallow embedding of the
script's pure logic in Lean 4, with theorems checking the natural-language
specification against it.

Modelling conventions:
* Python strings are modelled as `List Char` (ASCII fragment of `\s`/`\d`
  classes: the inputs of interest are ASCII).
* Fallible Python operations (list indexing, `max()` on an empty sequence,
  division by zero) are modelled with `Except PyError`.
* Python floats are modelled as rationals (`ℚ`); the concrete values appearing
  in theorems are exactly representable, so no rounding gap arises.
-/

namespace WebBlast

/-- Python runtime errors that the script can raise on the modelled paths. -/
inductive PyError where
  | indexError
  | valueError
  | zeroDivisionError
  deriving DecidableEq, Repr

instance exceptDecEq {ε α : Type} [DecidableEq ε] [DecidableEq α] :
    DecidableEq (Except ε α) := fun x y =>
  match x, y with
  | Except.ok a, Except.ok b =>
      if h : a = b then isTrue (h ▸ rfl) else isFalse fun hh => h (Except.ok.inj hh)
  | Except.error a, Except.error b =>
      if h : a = b then isTrue (h ▸ rfl) else isFalse fun hh => h (Except.error.inj hh)
  | Except.ok _, Except.error _ => isFalse fun hh => Except.noConfusion hh
  | Except.error _, Except.ok _ => isFalse fun hh => Except.noConfusion hh

/-- `l[i]` in Python: raises `IndexError` when out of range. -/
def pyGet {α : Type} (l : List α) (i : Nat) : Except PyError α :=
  match l.get? i with
  | some x => Except.ok x
  | none => Except.error PyError.indexError

/-- Python `max()` over a sequence: `ValueError` on the empty sequence. -/
def pyMax (l : List ℚ) : Except PyError ℚ :=
  match l with
  | [] => Except.error PyError.valueError
  | x :: xs => Except.ok (xs.foldl max x)

/-- Python true division: `ZeroDivisionError` when the divisor is zero. -/
def pyDiv (a b : ℚ) : Except PyError ℚ :=
  if b = 0 then Except.error PyError.zeroDivisionError else Except.ok (a / b)

/-- The ASCII characters matched by Python's regex class `\s`. -/
def isPySpace (c : Char) : Bool :=
  c = ' ' || c = '\t' || c = '\n' || c = '\r' || c = '\x0b' || c = '\x0c'

/-- ASCII decimal digit (regex class `\d`). -/
def isPyDigit (c : Char) : Bool :=
  '0' ≤ c && c ≤ '9'

/-! ## Poll-response classification (lines 133–151 of `web_blast.py`)

Each poll iteration classifies the response body with
`re.search(r'\s+Status=<STATUS>', text)`.  `re.search` looks for the pattern
anywhere in the text, and `\s+` matches iff at least one whitespace character
precedes the literal, so the search succeeds iff some position holds a
whitespace character immediately followed by `Status=<STATUS>`. -/

/-- `re.search(r'\s+Status=' ++ marker, text)` as a Boolean. -/
def hasMarker (text : List Char) (marker : List Char) : Bool :=
  match text with
  | [] => false
  | c :: rest =>
      (isPySpace c && (('S' :: 't' :: 'a' :: 't' :: 'u' :: 's' :: '=' :: marker).isPrefixOf rest))
      || hasMarker rest marker

/-- The five classifications a poll response body can receive. -/
inductive JobStatus where
  | waiting
  | failed
  | unknown
  | ready
  | unrecognized
  deriving DecidableEq, Repr

/-- The body classification implicit in the chain of `re.search` tests of the
poll loop: the four markers are tried in the fixed order WAITING, FAILED,
UNKNOWN, READY; if none is present the body is unrecognized. -/
def classifyPoll (text : List Char) : JobStatus :=
  if hasMarker text "WAITING".toList then JobStatus.waiting
  else if hasMarker text "FAILED".toList then JobStatus.failed
  else if hasMarker text "UNKNOWN".toList then JobStatus.unknown
  else if hasMarker text "READY".toList then JobStatus.ready
  else JobStatus.unrecognized

/-- What the poll loop body does after classifying: re-enter the loop, leave
it, or terminate the process with an exit code. -/
inductive PollControl where
  | continueLoop
  | breakLoop
  | exitWith (code : Nat)
  deriving DecidableEq, Repr

/-- One iteration of the poll loop, given the request id and the response
body: the list of diagnostic lines written to stderr, and the control action
taken (lines 139–151 of `web_blast.py`).  Note that the fall-through
`sys.exit(5)` on line 151 writes no diagnostic. -/
def pollStep (rid : String) (text : List Char) : List String × PollControl :=
  if hasMarker text "WAITING".toList then
    (["Searching..."], PollControl.continueLoop)
  else if hasMarker text "FAILED".toList then
    ([s!"Search {rid} failed; please report to blast-help@ncbi.nlm.nih.gov."],
      PollControl.exitWith 4)
  else if hasMarker text "UNKNOWN".toList then
    ([s!"Search {rid} expired."], PollControl.exitWith 3)
  else if hasMarker text "READY".toList then
    (["Search complete, retrieving results..."], PollControl.breakLoop)
  else
    ([], PollControl.exitWith 5)

/-! ## Submission-response parsing (lines 118–128 of `web_blast.py`)

`re.search(r'^\s*RID\s*=\s*(\S+)', text, re.M)` and
`re.search(r'^\s*RTOE\s*=\s*(\d+)', text, re.M)`.

With `re.M`, `^` anchors at the start of the text and after every `'\n'`.
Each `\s*` is greedy over whitespace; since the literal that follows it
(`RID`/`RTOE`, `=`, a `\S`/`\d` character) is never itself whitespace,
backtracking never helps and the greedy maximal munch is exact.  Note that
`\s` also matches `'\n'`, so a single match may span several lines. -/

/-- Attempt `\s*<kw>\s*=\s*(<tok>+)` at one anchor position: drop whitespace,
expect the keyword, drop whitespace, expect `=`, drop whitespace, then take
the maximal non-empty run of token characters. -/
def tryMatchKV (kw : List Char) (tok : Char → Bool) (l : List Char) :
    Option (List Char) :=
  let l1 := l.dropWhile (fun c => isPySpace c)
  if kw.isPrefixOf l1 then
    match (l1.drop kw.length).dropWhile (fun c => isPySpace c) with
    | '=' :: l3 =>
        let t := (l3.dropWhile (fun c => isPySpace c)).takeWhile tok
        if t.isEmpty then none else some t
    | _ => none
  else none

/-- `re.search` of an `^`-anchored pattern in multiline mode: try the pattern
at position 0 and after every `'\n'`, left to right; return the first capture.
`anchored` records whether the current position is a line start. -/
def searchKVAux (kw : List Char) (tok : Char → Bool) (anchored : Bool) :
    List Char → Option (List Char)
  | [] => none
  | c :: rest =>
      if anchored then
        match tryMatchKV kw tok (c :: rest) with
        | some t => some t
        | none => searchKVAux kw tok (c = '\n') rest
      else searchKVAux kw tok (c = '\n') rest

/-- `re.search(r'^\s*<kw>\s*=\s*(<tok>+)', text, re.M)`, returning the first
capture group. -/
def searchKV (kw : List Char) (tok : Char → Bool) (text : List Char) :
    Option (List Char) :=
  searchKVAux kw tok true text

/-- The captured `RID` token of the submission response, if any. -/
def searchRID (text : List Char) : Option (List Char) :=
  searchKV "RID".toList (fun c => !isPySpace c) text

/-- The captured `RTOE` digit string of the submission response, if any. -/
def searchRTOE (text : List Char) : Option (List Char) :=
  searchKV "RTOE".toList isPyDigit text

/-- `int()` of an ASCII digit string. -/
def digitsToNat (l : List Char) : Nat :=
  l.foldl (fun a c => 10 * a + (c.toNat - 48)) 0

/-- Lines 118–128: parse RID and RTOE; if either is missing (or the RID token
is falsy, which cannot happen since `\S+` captures are non-empty) the script
writes a diagnostic and exits with status 1.  `none` models that exit. -/
def parseSubmission (text : List Char) : Option (List Char × Nat) :=
  match searchRID text, searchRTOE text with
  | some rid, some rtoe =>
      if rid.isEmpty then none else some (rid, digitsToNat rtoe)
  | _, _ => none

/-- A single line (no `'\n'` inside) matching the line-anchored pattern
`ws* RID ws* = ws* token`: what the spec calls "the `RID = <token>` line". -/
def lineHasRID (line : List Char) : Bool :=
  (tryMatchKV "RID".toList (fun c => !isPySpace c) line).isSome

/-- A single line matching `ws* RTOE ws* = ws* digits`. -/
def lineHasRTOE (line : List Char) : Bool :=
  (tryMatchKV "RTOE".toList isPyDigit line).isSome

/-- Split on `'\n'` (the line structure `re.M`'s `^` anchors refer to). -/
def splitOnNewline (l : List Char) : List (List Char) :=
  match l with
  | [] => [[]]
  | c :: rest =>
      let r := splitOnNewline rest
      if c = '\n' then [] :: r
      else
        match r with
        | h :: t => (c :: h) :: t
        | [] => [[c]]

/-! ## Result aggregation (lines 153–192 of `web_blast.py`)

The JSON2_S result document, as the script consumes it.  Dictionary keys the
script reads unconditionally (`report`, `results`, `search`, `title`,
`accession`, `len`, `hsps`, numeric HSP fields) are structure fields;
`sciname` is read with `.get` and is an `Option`.  JSON numbers that are
integral in the schema (`score`, `identity`, `align_len`, `len`,
`query_len`) are `ℤ`; `bit_score` and `evalue` are `ℚ`. -/

structure HspJson where
  bit_score : ℚ
  score : ℤ
  identity : ℤ
  align_len : ℤ
  evalue : ℚ
  deriving DecidableEq, Repr

structure DescriptionJson where
  title : String
  sciname : Option String
  accession : String
  deriving DecidableEq, Repr

structure HitJson where
  description : List DescriptionJson
  len : ℤ
  hsps : List HspJson
  deriving DecidableEq, Repr

structure SearchJson where
  query_len : ℤ
  hits : List HitJson
  deriving DecidableEq, Repr

/-- One element of `data["BlastOutput2"]`, with the unconditional key chain
`["report"]["results"]["search"]` collapsed into the single field. -/
structure ReportJson where
  search : SearchJson
  deriving DecidableEq, Repr

structure BlastData where
  blastOutput2 : List ReportJson
  deriving DecidableEq, Repr

/-- Line 166: `max(h["bit_score"] for h in hsps)`. -/
def maxBitScore (hsps : List HspJson) : Except PyError ℚ :=
  pyMax (hsps.map fun h => h.bit_score)

/-- Line 167: `sum(h["bit_score"] for h in hsps)`. -/
def totalBitScore (hsps : List HspJson) : ℚ :=
  (hsps.map fun h => h.bit_score).sum

/-- Line 168: `sum(h["score"] for h in hsps)`. -/
def totalScore (hsps : List HspJson) : ℤ :=
  (hsps.map fun h => h.score).sum

/-- Line 169: `sum(h["identity"] for h in hsps)`. -/
def totalIdentity (hsps : List HspJson) : ℤ :=
  (hsps.map fun h => h.identity).sum

/-- Line 170: `sum(h["align_len"] for h in hsps)`. -/
def totalAlignLength (hsps : List HspJson) : ℤ :=
  (hsps.map fun h => h.align_len).sum

/-- Round a rational to the nearest integer, ties to even — the rounding
Python's `round` and `format(..., '.0f')` apply. -/
def roundHalfEven (q : ℚ) : ℤ :=
  let n := q.floor
  let f := q - n
  if f < 1 / 2 then n
  else if 1 / 2 < f then n + 1
  else if n % 2 = 0 then n else n + 1

/-- Python `f"{x:.0f}"` for a value modelled as a rational. -/
def fmtF0 (q : ℚ) : String :=
  toString (roundHalfEven q)

/-- Python `f"{x:.2f}"` for a value modelled as a rational. -/
def fmtF2 (q : ℚ) : String :=
  let c := roundHalfEven (q * 100)
  let sign := if c < 0 then "-" else ""
  let a := c.natAbs
  let frac := a % 100
  sign ++ toString (a / 100) ++ "." ++
    (if frac < 10 then "0" ++ toString frac else toString frac)

/-- Line 172: `f"{(100 * total_align_length / query_len):.0f}%"`. -/
def queryCoverStr (tal ql : ℤ) : Except PyError String :=
  (pyDiv (100 * (tal : ℚ)) (ql : ℚ)).map fun q => fmtF0 q ++ "%"

/-- Line 173: `f"{(100 * total_identity / total_align_length):.2f}%"`. -/
def percentIdentityStr (ti tal : ℤ) : Except PyError String :=
  (pyDiv (100 * (ti : ℚ)) ((tal : ℚ))).map fun q => fmtF2 q ++ "%"

/-- The summary record of lines 179–192, with the Python value types kept
(`scientific_name` may be `None`). -/
structure ResultRecord where
  basename : String
  description : String
  scientific_name : Option String
  max_score : ℚ
  total_score : ℚ
  query_cover : String
  e_value : ℚ
  percent_identity : String
  accession_length : ℤ
  accession : String
  query_length : ℤ
  sequence : String
  deriving DecidableEq, Repr

/-- Lines 158–192: extract the first report's first hit and aggregate it into
the summary record.  Fallible steps (`[0]` indexing, `max()` on an empty
sequence, the two divisions) are sequenced in the source's evaluation
order. -/
def buildResult (basename sequence : String) (data : BlastData) :
    Except PyError ResultRecord := do
  let rep0 ← pyGet data.blastOutput2 0
  let hit ← pyGet rep0.search.hits 0
  let query_len := rep0.search.query_len
  let desc0 ← pyGet hit.description 0
  let hsps := hit.hsps
  let max_bit_score ← maxBitScore hsps
  let query_cover ← queryCoverStr (totalAlignLength hsps) query_len
  let percent_identity ← percentIdentityStr (totalIdentity hsps) (totalAlignLength hsps)
  let h0 ← pyGet hsps 0
  Except.ok
    { basename := basename
      description := desc0.title
      scientific_name := desc0.sciname
      max_score := max_bit_score
      total_score := totalBitScore hsps
      query_cover := query_cover
      e_value := h0.evalue
      percent_identity := percent_identity
      accession_length := hit.len
      accession := desc0.accession
      query_length := query_len
      sequence := sequence }

/-! ## Output formatting (lines 25–31 and 194–205 of `web_blast.py`) -/

/-- The Python values that reach `csv_escape` / `json.dumps` here. -/
inductive PyValue where
  | vStr (s : String)
  | vInt (n : ℤ)
  | vFloat (q : ℚ)
  | vNone
  deriving DecidableEq, Repr

/-- Decimal digits of a fraction in `[0, 1)`, up to the given count, stopping
at an exact representation. -/
def fracDigits : Nat → ℚ → String
  | 0, _ => ""
  | n + 1, q =>
      if q = 0 then ""
      else
        let d := (q * 10).floor
        toString d ++ fracDigits n (q * 10 - d)

/-- `str()` of a Python float, modelled for values with a short exact decimal
expansion (all floats handled concretely in this development are such). -/
def pyFloatStr (q : ℚ) : String :=
  let sign := if q < 0 then "-" else ""
  let a := if q < 0 then -q else q
  let ip := a.floor
  let fp := a - ip
  sign ++ toString ip ++ "." ++ (if fp = 0 then "0" else fracDigits 17 fp)

/-- Python `str()` on the value kinds reaching the formatter; in particular
`str(None)` is the literal `None`. -/
def pyToStr : PyValue → String
  | PyValue.vStr s => s
  | PyValue.vInt n => toString n
  | PyValue.vFloat q => pyFloatStr q
  | PyValue.vNone => "None"

/-- `csv_escape` (lines 25–31): quote only when a comma, semicolon or double
quote occurs, doubling internal double quotes. -/
def csvEscape (v : PyValue) : String :=
  let s := pyToStr v
  if s.toList.any (fun c => c = ',' || c = ';' || c = '"') then
    "\"" ++ String.join (s.toList.map fun c =>
      if c = '"' then "\"\"" else String.singleton c) ++ "\""
  else s

/-- The fixed CSV field order of lines 198–203. -/
def csvFields (r : ResultRecord) : List PyValue :=
  [PyValue.vStr r.basename, PyValue.vStr r.description,
   (match r.scientific_name with
    | some s => PyValue.vStr s
    | none => PyValue.vNone),
   PyValue.vFloat r.max_score, PyValue.vFloat r.total_score,
   PyValue.vStr r.query_cover, PyValue.vFloat r.e_value,
   PyValue.vStr r.percent_identity, PyValue.vInt r.accession_length,
   PyValue.vStr r.accession, PyValue.vInt r.query_length,
   PyValue.vStr r.sequence]

/-- Line 205: the comma-joined CSV line over the escaped fields. -/
def csvLine (r : ResultRecord) : String :=
  String.intercalate "," ((csvFields r).map csvEscape)

/-- JSON string escaping as `json.dumps` performs it on the ASCII range
(non-ASCII would additionally be `\uXXXX`-escaped; the values handled
concretely here are ASCII). -/
def jsonEscapeChar (c : Char) : String :=
  if c = '"' then "\\\""
  else if c = '\\' then "\\\\"
  else if c = '\n' then "\\n"
  else if c = '\t' then "\\t"
  else if c = '\r' then "\\r"
  else String.singleton c

/-- `json.dumps` rendering of one value; Python `None` renders as `null`. -/
def jsonOfValue : PyValue → String
  | PyValue.vStr s => "\"" ++ String.join (s.toList.map jsonEscapeChar) ++ "\""
  | PyValue.vInt n => toString n
  | PyValue.vFloat q => pyFloatStr q
  | PyValue.vNone => "null"

/-- The insertion-ordered key/value pairs of the `result` dict
(lines 179–192). -/
def resultItems (r : ResultRecord) : List (String × PyValue) :=
  [("basename", PyValue.vStr r.basename),
   ("description", PyValue.vStr r.description),
   ("scientific_name",
     match r.scientific_name with
     | some s => PyValue.vStr s
     | none => PyValue.vNone),
   ("max_score", PyValue.vFloat r.max_score),
   ("total_score", PyValue.vFloat r.total_score),
   ("query_cover", PyValue.vStr r.query_cover),
   ("e_value", PyValue.vFloat r.e_value),
   ("percent_identity", PyValue.vStr r.percent_identity),
   ("accession_length", PyValue.vInt r.accession_length),
   ("accession", PyValue.vStr r.accession),
   ("query_length", PyValue.vInt r.query_length),
   ("sequence", PyValue.vStr r.sequence)]

/-- The member lines of `json.dumps(result, indent=2)`: two-space indent, a
trailing comma on every member but the last. -/
def jsonItemLines : List (String × PyValue) → List String
  | [] => []
  | [(k, v)] => ["  " ++ jsonOfValue (PyValue.vStr k) ++ ": " ++ jsonOfValue v]
  | (k, v) :: rest =>
      ("  " ++ jsonOfValue (PyValue.vStr k) ++ ": " ++ jsonOfValue v ++ ",")
        :: jsonItemLines rest

/-- The lines of `json.dumps(result, indent=2)` (line 195). -/
def jsonDumpLines (r : ResultRecord) : List String :=
  "\x7b" :: jsonItemLines (resultItems r) ++ ["\x7d"]

/-- `json.dumps(result, indent=2)` as a single string. -/
def jsonDump (r : ResultRecord) : String :=
  String.intercalate "\n" (jsonDumpLines r)

/-! ## Input reading and query encoding (lines 34–47 and 87–99)

File contents are modelled as the text the script sees after Python's
text-mode newline translation (`List Char`). -/

/-- Uppercase hexadecimal digit. -/
def hexDigitChar (n : Nat) : Char :=
  "0123456789ABCDEF".toList.getD n '0'

/-- Two-digit uppercase hexadecimal rendering of a byte. -/
def hex2 (n : Nat) : List Char :=
  [hexDigitChar (n / 16), hexDigitChar (n % 16)]

/-- The UTF-8 bytes of a character (as `urllib.parse.quote` encodes str). -/
def utf8Bytes (c : Char) : List Nat :=
  let n := c.toNat
  if n < 128 then [n]
  else if n < 2048 then [192 + n / 64, 128 + n % 64]
  else if n < 65536 then [224 + n / 4096, 128 + n / 64 % 64, 128 + n % 64]
  else [240 + n / 262144, 128 + n / 4096 % 64, 128 + n / 64 % 64, 128 + n % 64]

/-- The characters `urllib.parse.quote` leaves unencoded with the default
`safe='/'`: ASCII letters, digits, `_ . - ~`, and `/`. -/
def isQuoteSafe (c : Char) : Bool :=
  c.isAlpha || c.isDigit || c = '_' || c = '.' || c = '-' || c = '~' || c = '/'

/-- `urllib.parse.quote` on one character. -/
def pyQuoteChar (c : Char) : List Char :=
  if isQuoteSafe c then [c]
  else ((utf8Bytes c).map fun b => '%' :: hex2 b).flatten

/-- `urllib.parse.quote(s)` with the default safe set. -/
def pyQuote (l : List Char) : List Char :=
  (l.map pyQuoteChar).flatten

/-- Helper for splitting text into lines that keep their `'\n'` terminators;
`acc` holds the reversed current line. -/
def splitKeepEndsAux (acc : List Char) : List Char → List (List Char)
  | [] => if acc.isEmpty then [] else [acc.reverse]
  | c :: rest =>
      if c = '\n' then (acc.reverse ++ ['\n']) :: splitKeepEndsAux [] rest
      else splitKeepEndsAux (c :: acc) rest

/-- The lines Python file iteration / `readlines()` yields: split after each
`'\n'`, terminators kept, no empty trailing line. -/
def splitLinesKeepEnds (l : List Char) : List (List Char) :=
  splitKeepEndsAux [] l

/-- Lines 87–95: the accumulation loop
`for q in queries: for line in fh: encoded_query += quote(line)`,
as a fold over the ordered file contents. -/
def encodedQueryLoop (files : List (List Char)) : List Char :=
  files.foldl
    (fun acc content =>
      (splitLinesKeepEnds content).foldl (fun a line => a ++ pyQuote line) acc)
    []

/-- The spec's description of the payload: each file's full raw content
percent-encoded line by line, the per-file encodings concatenated in argument
order. -/
def encodedQuerySpec (files : List (List Char)) : List Char :=
  (files.map fun content => ((splitLinesKeepEnds content).map pyQuote).flatten).flatten

/-- `os.path.basename` on a POSIX path: the part after the last `'/'`. -/
def pyBasename (p : List Char) : List Char :=
  (p.reverse.takeWhile fun c => c ≠ '/').reverse

/-- Index of the last occurrence of `c` in `l`, or `-1` (Python `rfind`). -/
def rfindIdx (l : List Char) (c : Char) : ℤ :=
  match l.reverse.indexOf? c with
  | some k => ((l.length - 1 - k : Nat) : ℤ)
  | none => -1

/-- The root part of `os.path.splitext(p)`: split at the last dot after the
last separator, except when every character between the separator and that
dot is itself a dot (leading dots of the file name do not start an
extension). -/
def pySplitextRoot (p : List Char) : List Char :=
  let sep := rfindIdx p '/'
  let dot := rfindIdx p '.'
  if sep < dot then
    let seg := (p.drop (sep + 1).toNat).take (dot - sep - 1).toNat
    if seg.any (fun c => c ≠ '.') then p.take dot.toNat else p
  else p

/-- `read_first_fasta_info` (lines 34–47): base name of the path without its
extension, and the file content with its first line dropped when that line
starts with `'>'`, then every `'\r'` and `'\n'` removed. -/
def readFirstFastaInfo (path content : List Char) : List Char × List Char :=
  let base := pySplitextRoot (pyBasename path)
  let lines := splitLinesKeepEnds content
  let lines2 :=
    match lines with
    | (c :: cs) :: rest => if c = '>' then rest else (c :: cs) :: rest
    | other => other
  (base, lines2.flatten.filter fun c => !(c = '\r' || c = '\n'))

/-- Lines 88–99: the `first` flag loop that captures `basename`/`sequence`
from the first query file only (files given as path/content pairs; the
initial state holds the empty strings of lines 89–90). -/
def firstFileMetaLoop (files : List (List Char × List Char)) :
    List Char × List Char :=
  (files.foldl
    (fun st f => if st.1 then (false, readFirstFastaInfo f.1 f.2) else st)
    (true, ([], []))).2

/-- Drop everything up to and including the first `'\n'` (the whole text when
it has no newline): the spec's "first line … is discarded". -/
def dropFirstLine (l : List Char) : List Char :=
  (l.dropWhile fun c => c ≠ '\n').drop 1

/-- The sequence field as the spec words it: the content with the first line
discarded iff it starts with `'>'`, and all carriage-return and newline
characters removed. -/
def specStripSeq (content : List Char) : List Char :=
  (if content.take 1 = ['>'] then dropFirstLine content else content).filter
    fun c => !(c = '\r' || c = '\n')

/-! ## Helper lemmas -/

theorem foldl_max_mem (x : ℚ) (xs : List ℚ) : xs.foldl max x ∈ x :: xs := by
  induction xs generalizing x with
  | nil => simp
  | cons a as ih =>
      rw [List.foldl_cons]
      rcases List.mem_cons.mp (ih (max x a)) with h1 | h2
      · rw [h1]
        rcases max_choice x a with hx | ha
        · rw [hx]; exact List.mem_cons_self _ _
        · rw [ha]; exact List.mem_cons_of_mem _ (List.mem_cons_self _ _)
      · exact List.mem_cons_of_mem _ (List.mem_cons_of_mem _ h2)

theorem le_foldl_max (x : ℚ) (xs : List ℚ) : ∀ y ∈ x :: xs, y ≤ xs.foldl max x := by
  induction xs generalizing x with
  | nil => intro y hy; rw [List.mem_singleton] at hy; simp [hy]
  | cons a as ih =>
      intro y hy
      rw [List.foldl_cons]
      rcases List.mem_cons.mp hy with h1 | h2
      · subst h1
        exact le_trans (le_max_left y a) (ih (max y a) _ (List.mem_cons_self _ _))
      · rcases List.mem_cons.mp h2 with h3 | h4
        · subst h3
          exact le_trans (le_max_right x y) (ih (max x y) _ (List.mem_cons_self _ _))
        · exact ih (max x a) y (List.mem_cons_of_mem _ h4)

/-! ## Claims about the poll loop -/

/-- C3: poll-response classification scans for the four status markers in the
fixed priority order WAITING, FAILED, UNKNOWN, READY, and when none matches it
terminates fatally with exit code 5 (no retry, no diagnostic loop re-entry);
in particular any body containing a WAITING marker — even one that also
contains a READY marker — classifies as WAITING. -/
theorem pollClassificationPriority (text : List Char) :
    (hasMarker text "WAITING".toList = true → classifyPoll text = JobStatus.waiting)
  ∧ (hasMarker text "WAITING".toList = false → hasMarker text "FAILED".toList = true →
      classifyPoll text = JobStatus.failed)
  ∧ (hasMarker text "WAITING".toList = false → hasMarker text "FAILED".toList = false →
      hasMarker text "UNKNOWN".toList = true → classifyPoll text = JobStatus.unknown)
  ∧ (hasMarker text "WAITING".toList = false → hasMarker text "FAILED".toList = false →
      hasMarker text "UNKNOWN".toList = false → hasMarker text "READY".toList = true →
      classifyPoll text = JobStatus.ready)
  ∧ (hasMarker text "WAITING".toList = false → hasMarker text "FAILED".toList = false →
      hasMarker text "UNKNOWN".toList = false → hasMarker text "READY".toList = false →
      classifyPoll text = JobStatus.unrecognized
        ∧ ∀ rid, pollStep rid text = ([], PollControl.exitWith 5)) := by
  refine ⟨?_, ?_, ?_, ?_, ?_⟩ <;> intros <;> simp_all [classifyPoll, pollStep]

/-- Witness for `pollClassificationPriority`: a body holding both a WAITING
and a READY marker classifies as WAITING, and a marker-free body is fatal
with exit code 5. -/
theorem pollClassificationPriorityWitness :
    classifyPoll " Status=WAITING also Status=READY".toList = JobStatus.waiting
  ∧ pollStep "Q1" "ERROR".toList = ([], PollControl.exitWith 5) :=
  ⟨(pollClassificationPriority " Status=WAITING also Status=READY".toList).1 (by decide),
   ((pollClassificationPriority "ERROR".toList).2.2.2.2 (by decide) (by decide)
      (by decide) (by decide)).2 "Q1"⟩

/-- C2 counterexample: a poll body matching none of the four markers makes the
script exit with code 5 while writing no diagnostic message at all, refuting
"in each of these three cases a human-readable diagnostic message is written
before exiting". -/
theorem unrecognizedStatusExitsSilently :
    (pollStep "Q1" "ERROR 404".toList).2 = PollControl.exitWith 5
  ∧ (pollStep "Q1" "ERROR 404".toList).1 = [] := by
  constructor <;> decide

/-- C2 (amended): terminal poll states exit with the distinct codes 4 (FAILED),
3 (UNKNOWN), 5 (unrecognized); a human-readable diagnostic is written before
exiting for FAILED and UNKNOWN, while the unrecognized-status exit writes no
message. -/
theorem terminalStatusExitCodes (rid : String) (text : List Char) :
    (classifyPoll text = JobStatus.failed →
      pollStep rid text =
        ([s!"Search {rid} failed; please report to blast-help@ncbi.nlm.nih.gov."],
          PollControl.exitWith 4))
  ∧ (classifyPoll text = JobStatus.unknown →
      pollStep rid text = ([s!"Search {rid} expired."], PollControl.exitWith 3))
  ∧ (classifyPoll text = JobStatus.unrecognized →
      pollStep rid text = ([], PollControl.exitWith 5)) := by
  unfold classifyPoll pollStep
  split_ifs <;> simp_all

/-- Witness for `terminalStatusExitCodes`: each of the three terminal cases at
a concrete poll body. -/
theorem terminalStatusExitCodesWitness :
    pollStep "Q1" " Status=FAILED".toList =
      (["Search Q1 failed; please report to blast-help@ncbi.nlm.nih.gov."],
        PollControl.exitWith 4)
  ∧ pollStep "Q1" " Status=UNKNOWN".toList =
      (["Search Q1 expired."], PollControl.exitWith 3)
  ∧ pollStep "Q1" "ERROR".toList = ([], PollControl.exitWith 5) :=
  ⟨(terminalStatusExitCodes "Q1" " Status=FAILED".toList).1 (by decide),
   (terminalStatusExitCodes "Q1" " Status=UNKNOWN".toList).2.1 (by decide),
   (terminalStatusExitCodes "Q1" "ERROR".toList).2.2 (by decide)⟩

/-! ## Claims about submission parsing -/

/-- C4 counterexample: in the body `"RID\n= ABC123\nRTOE = 15"` no single line
matches the line-anchored `RID = <token>` pattern (the `RID = …` line is
absent), yet submission parsing succeeds with `(ABC123, 15)`, because the
`\s*` of `r'^\s*RID\s*=\s*(\S+)'` also matches the newline between `RID` and
`=`.  This refutes "for every body in which either line is absent, submission
fails". -/
theorem ridPatternSpansLines :
    ((splitOnNewline "RID\n= ABC123\nRTOE = 15".toList).all fun l => !lineHasRID l) = true
  ∧ parseSubmission "RID\n= ABC123\nRTOE = 15".toList = some ("ABC123".toList, 15) := by
  constructor <;> decide

/-- C4 (amended): submission parsing uses the two independent patterns
`RID = <token>` and `RTOE = <integer>`, each anchored at a line start but with
whitespace that may span line breaks; a body containing the lines
`RID = ABC123` and `RTOE = 15` yields exactly the handle `(ABC123, 15)`, and
for every body in which either pattern matches nowhere, submission fails. -/
theorem submissionParseBehavior (text : List Char) :
    parseSubmission "RID = ABC123\nRTOE = 15".toList = some ("ABC123".toList, 15)
  ∧ (searchRID text = none → parseSubmission text = none)
  ∧ (searchRTOE text = none → parseSubmission text = none) := by
  refine ⟨by decide, ?_, ?_⟩ <;> intro h <;>
    cases h1 : searchRID text <;> cases h2 : searchRTOE text <;>
      simp_all [parseSubmission]

/-- Witness for `submissionParseBehavior`: a body with an `RID` line but no
`RTOE` anywhere fails to parse. -/
theorem submissionParseBehaviorWitness :
    parseSubmission "RID = ABC123".toList = none :=
  (submissionParseBehavior "RID = ABC123".toList).2.2 (by decide)

/-! ## Claims about result extraction and aggregation -/

/-- C1: on a result document whose first report has an empty hit list, the
script does not surface an explicit `EmptyResultError`: the unguarded
`hits[0]` of line 158 raises `IndexError` (an unhandled crash), which is the
error the extraction aborts with. -/
theorem emptyHitsCrashWithIndexError :
    buildResult "query" "ACGT"
      { blastOutput2 := [{ search := { query_len := 100, hits := [] } }] }
      = Except.error PyError.indexError := by
  rfl

/-- C9: the percentage computations are unguarded divisions: a result whose
(non-empty) HSP list has every `align_len` equal to 0 makes the
percent-identity computation divide by zero, and a result with `query_len = 0`
makes the query-cover computation divide by zero; in both cases the program
faults with `ZeroDivisionError` instead of producing a summary. -/
theorem unguardedDivisionFaults :
    buildResult "query" "ACGT"
      { blastOutput2 := [{ search := { query_len := 100, hits :=
          [{ description := [{ title := "t", sciname := some "s", accession := "a" }],
             len := 10,
             hsps := [{ bit_score := 50, score := 60, identity := 0,
                        align_len := 0, evalue := 1 }] }] } }] }
      = Except.error PyError.zeroDivisionError
  ∧ buildResult "query" "ACGT"
      { blastOutput2 := [{ search := { query_len := 0, hits :=
          [{ description := [{ title := "t", sciname := some "s", accession := "a" }],
             len := 10,
             hsps := [{ bit_score := 50, score := 60, identity := 40,
                        align_len := 45, evalue := 1 }] }] } }] }
      = Except.error PyError.zeroDivisionError := by
  constructor <;> rfl

/-- C5: for every non-empty HSP list, `max_bit_score` is the maximum of the
segments' bit scores, `total_bit_score` is their sum, and the aggregated
e-value is taken from the first segment of the list (`hsps[0]`), which on
concrete input differs from the minimum across segments. -/
theorem bestHitAggregation (h : HspJson) (hs : List HspJson) :
    (∃ m, maxBitScore (h :: hs) = Except.ok m
        ∧ m ∈ (h :: hs).map HspJson.bit_score
        ∧ ∀ x ∈ (h :: hs).map HspJson.bit_score, x ≤ m)
  ∧ totalBitScore (h :: hs) = ((h :: hs).map HspJson.bit_score).sum
  ∧ pyGet (h :: hs) 0 = Except.ok h
  ∧ (pyGet [({ bit_score := 50, score := 1, identity := 1, align_len := 1,
               evalue := 3 } : HspJson),
            { bit_score := 60, score := 1, identity := 1, align_len := 1,
              evalue := 2 }] 0
        = Except.ok { bit_score := 50, score := 1, identity := 1,
                      align_len := 1, evalue := 3 }
      ∧ (3 : ℚ) ≠ min 3 2) := by
  refine ⟨⟨(hs.map HspJson.bit_score).foldl max h.bit_score, rfl, ?_, ?_⟩,
    rfl, rfl, rfl, by decide⟩
  · simpa using foldl_max_mem h.bit_score (hs.map HspJson.bit_score)
  · intro x hx
    exact le_foldl_max h.bit_score (hs.map HspJson.bit_score) x (by simpa using hx)

/-- Witness for `bestHitAggregation` at a concrete two-segment list. -/
theorem bestHitAggregationWitness :
    (∃ m, maxBitScore
        [({ bit_score := 100, score := 200, identity := 90, align_len := 100,
            evalue := 1 } : HspJson),
         { bit_score := 80, score := 150, identity := 70, align_len := 80,
           evalue := 2 }] = Except.ok m
        ∧ m ∈ ([({ bit_score := 100, score := 200, identity := 90, align_len := 100,
                   evalue := 1 } : HspJson),
                { bit_score := 80, score := 150, identity := 70, align_len := 80,
                  evalue := 2 }].map HspJson.bit_score)
        ∧ ∀ x ∈ ([({ bit_score := 100, score := 200, identity := 90, align_len := 100,
                     evalue := 1 } : HspJson),
                  { bit_score := 80, score := 150, identity := 70, align_len := 80,
                    evalue := 2 }].map HspJson.bit_score), x ≤ m)
  ∧ totalBitScore
      [({ bit_score := 100, score := 200, identity := 90, align_len := 100,
          evalue := 1 } : HspJson),
       { bit_score := 80, score := 150, identity := 70, align_len := 80,
         evalue := 2 }]
      = ([({ bit_score := 100, score := 200, identity := 90, align_len := 100,
             evalue := 1 } : HspJson),
          { bit_score := 80, score := 150, identity := 70, align_len := 80,
            evalue := 2 }].map HspJson.bit_score).sum
  ∧ pyGet
      [({ bit_score := 100, score := 200, identity := 90, align_len := 100,
          evalue := 1 } : HspJson),
       { bit_score := 80, score := 150, identity := 70, align_len := 80,
         evalue := 2 }] 0
      = Except.ok { bit_score := 100, score := 200, identity := 90,
                    align_len := 100, evalue := 1 }
  ∧ (pyGet [({ bit_score := 50, score := 1, identity := 1, align_len := 1,
               evalue := 3 } : HspJson),
            { bit_score := 60, score := 1, identity := 1, align_len := 1,
              evalue := 2 }] 0
        = Except.ok { bit_score := 50, score := 1, identity := 1,
                      align_len := 1, evalue := 3 }
      ∧ (3 : ℚ) ≠ min 3 2) :=
  bestHitAggregation
    { bit_score := 100, score := 200, identity := 90, align_len := 100, evalue := 1 }
    [{ bit_score := 80, score := 150, identity := 70, align_len := 80, evalue := 2 }]

theorem rat_floor_eq (q : ℚ) (n : ℤ) (h1 : (n : ℚ) ≤ q) (h2 : q < (n : ℚ) + 1) :
    q.floor = n := by
  have ha : n ≤ q.floor := Rat.le_floor.mpr h1
  have hb : ¬ (n + 1 ≤ q.floor) := by
    intro hc
    have hle := Rat.le_floor.mp hc
    push_cast at hle
    linarith
  omega

theorem roundHalfEven_eval (q : ℚ) (n : ℤ) (hfl : q.floor = n)
    (hlt : q - (n : ℚ) < 1 / 2) : roundHalfEven q = n := by
  simp only [roundHalfEven, hfl]
  rw [if_pos hlt]

theorem roundHalfEven_eval_up (q : ℚ) (n : ℤ) (hfl : q.floor = n)
    (hgt : 1 / 2 < q - (n : ℚ)) : roundHalfEven q = n + 1 := by
  simp only [roundHalfEven, hfl]
  rw [if_neg (by linarith), if_pos hgt]

/-- C6: query cover renders as the rounded integer percentage of
`100 × total_align_length / query_len` with no decimal places, and percent
identity as `100 × total_identity / total_align_length` with exactly two
decimal places; in particular 450/500 renders as `"90%"` and 440/450 as
`"97.78%"`. -/
theorem percentFormatting :
    queryCoverStr 450 500 = Except.ok "90%"
  ∧ percentIdentityStr 440 450 = Except.ok "97.78%"
  ∧ (∀ tal ql : ℤ, ql ≠ 0 →
      queryCoverStr tal ql
        = Except.ok (toString (roundHalfEven (100 * (tal : ℚ) / (ql : ℚ))) ++ "%"))
  ∧ (∀ ti tal : ℤ, tal ≠ 0 →
      percentIdentityStr ti tal
        = Except.ok (fmtF2 (100 * (ti : ℚ) / (tal : ℚ)) ++ "%")) := by
  have h500 : (((500 : ℤ)) : ℚ) ≠ 0 := by norm_num
  have h450 : (((450 : ℤ)) : ℚ) ≠ 0 := by norm_num
  refine ⟨?_, ?_, ?_, ?_⟩
  · have hq1 : 100 * (((450 : ℤ)) : ℚ) / (((500 : ℤ)) : ℚ) = 90 := by norm_num
    have hr : roundHalfEven (90 : ℚ) = 90 :=
      roundHalfEven_eval _ _ (by decide) (by norm_num)
    simp only [queryCoverStr, pyDiv, if_neg h500, Except.map, hq1, fmtF0, hr]
    decide
  · have hq2 : 100 * (((440 : ℤ)) : ℚ) / (((450 : ℤ)) : ℚ) = 880 / 9 := by norm_num
    have hfl : ((880 : ℚ) / 9 * 100).floor = 9777 :=
      rat_floor_eq _ _ (by norm_num) (by norm_num)
    have hr : roundHalfEven ((880 : ℚ) / 9 * 100) = 9778 :=
      roundHalfEven_eval_up _ 9777 hfl (by norm_num)
    simp only [percentIdentityStr, pyDiv, if_neg h450, Except.map, hq2, fmtF2, hr]
    decide
  · intro tal ql hql
    have : ((ql : ℚ)) ≠ 0 := Int.cast_ne_zero.mpr hql
    simp [queryCoverStr, pyDiv, this, fmtF0, Except.map]
  · intro ti tal htal
    have : ((tal : ℚ)) ≠ 0 := Int.cast_ne_zero.mpr htal
    simp [percentIdentityStr, pyDiv, this, Except.map]

/-- Witness for `percentFormatting`: the two universally quantified parts at
the concrete inputs of the claim. -/
theorem percentFormattingWitness :
    queryCoverStr 450 500
      = Except.ok (toString (roundHalfEven (100 * ((450 : ℤ) : ℚ) / ((500 : ℤ) : ℚ))) ++ "%")
  ∧ percentIdentityStr 440 450
      = Except.ok (fmtF2 (100 * ((440 : ℤ) : ℚ) / ((450 : ℤ) : ℚ)) ++ "%") :=
  ⟨(percentFormatting.2.2.1) 450 500 (by decide),
   (percentFormatting.2.2.2) 440 450 (by decide)⟩

/-! ## Claims about input reading and encoding -/

theorem foldl_append_flatten {α : Type} (f : α → List Char) (l : List α) :
    ∀ init : List Char,
      l.foldl (fun a x => a ++ f x) init = init ++ (l.map f).flatten := by
  induction l with
  | nil => intro init; simp
  | cons x xs ih => intro init; simp [List.foldl_cons, ih, List.append_assoc]

/-- C7: the encoded query payload built by the accumulation loop equals, for
every ordered list of query-file contents, the concatenation in argument
order of each file's full raw content percent-encoded line by line. -/
theorem encodedPayloadIsOrderedConcat (files : List (List Char)) :
    encodedQueryLoop files = encodedQuerySpec files := by
  have hfun :
      (fun (acc : List Char) (content : List Char) =>
          (splitLinesKeepEnds content).foldl (fun a line => a ++ pyQuote line) acc)
        = fun acc content =>
            acc ++ ((splitLinesKeepEnds content).map pyQuote).flatten :=
    funext fun acc => funext fun content =>
      foldl_append_flatten pyQuote (splitLinesKeepEnds content) acc
  unfold encodedQueryLoop encodedQuerySpec
  rw [hfun]
  simpa using foldl_append_flatten
    (fun content => ((splitLinesKeepEnds content).map pyQuote).flatten) files []

/-- Witness for `encodedPayloadIsOrderedConcat` at a concrete two-file list. -/
theorem encodedPayloadIsOrderedConcatWitness :
    encodedQueryLoop [">h1\nACGT\n".toList, ">h2\nTTTT".toList]
      = encodedQuerySpec [">h1\nACGT\n".toList, ">h2\nTTTT".toList] :=
  encodedPayloadIsOrderedConcat [">h1\nACGT\n".toList, ">h2\nTTTT".toList]

theorem splitKeepEndsAux_flatten :
    ∀ (l acc : List Char), (splitKeepEndsAux acc l).flatten = acc.reverse ++ l := by
  intro l
  induction l with
  | nil =>
      intro acc
      simp only [splitKeepEndsAux]
      split_ifs with h
      · simp [List.isEmpty_iff.mp h]
      · simp
  | cons c rest ih =>
      intro acc
      simp only [splitKeepEndsAux]
      split_ifs with h
      · subst h
        simp [ih, List.append_assoc]
      · simpa [List.append_assoc] using ih (c :: acc)

theorem splitKeepEndsAux_tail_flatten :
    ∀ (l acc : List Char),
      ((splitKeepEndsAux acc l).tail).flatten = dropFirstLine l := by
  intro l
  induction l with
  | nil =>
      intro acc
      simp only [splitKeepEndsAux, dropFirstLine]
      split_ifs <;> simp
  | cons c rest ih =>
      intro acc
      simp only [splitKeepEndsAux, dropFirstLine]
      split_ifs with h
      · subst h
        simpa using splitKeepEndsAux_flatten rest []
      · simpa [dropFirstLine, List.dropWhile_cons, h] using ih (c :: acc)

theorem splitKeepEndsAux_head (l : List Char) :
    ∀ acc : List Char, acc ≠ [] →
      ∃ cs t, splitKeepEndsAux acc l = (acc.reverse ++ cs) :: t := by
  induction l with
  | nil =>
      intro acc hacc
      refine ⟨[], [], ?_⟩
      simp [splitKeepEndsAux, hacc]
  | cons c rest ih =>
      intro acc hacc
      simp only [splitKeepEndsAux]
      split_ifs with h
      · exact ⟨['\n'], splitKeepEndsAux [] rest, rfl⟩
      · obtain ⟨cs, t, ht⟩ := ih (c :: acc) (by simp)
        exact ⟨c :: cs, t, by simpa [List.append_assoc] using ht⟩

theorem split_head (c : Char) (rest : List Char) :
    ∃ cs t, splitLinesKeepEnds (c :: rest) = (c :: cs) :: t := by
  by_cases h : c = '\n'
  · subst h
    exact ⟨[], splitKeepEndsAux [] rest, rfl⟩
  · obtain ⟨cs, t, ht⟩ := splitKeepEndsAux_head rest [c] (by simp)
    exact ⟨cs, t, by simpa [splitLinesKeepEnds, splitKeepEndsAux, h] using ht⟩

theorem readFirstFastaInfo_snd (path content : List Char) :
    (readFirstFastaInfo path content).2 = specStripSeq content := by
  cases content with
  | nil => rfl
  | cons c rest =>
      obtain ⟨cs, t, hs⟩ := split_head c rest
      by_cases hc : c = '>'
      · subst hc
        have htail : t.flatten = dropFirstLine ('>' :: rest) := by
          have h2 := splitKeepEndsAux_tail_flatten ('>' :: rest) []
          rw [show splitKeepEndsAux [] ('>' :: rest)
                = splitLinesKeepEnds ('>' :: rest) from rfl, hs] at h2
          simpa using h2
        simp [readFirstFastaInfo, hs, htail, specStripSeq]
      · have hall : ((c :: cs) :: t).flatten = c :: rest := by
          have h2 := splitKeepEndsAux_flatten (c :: rest) []
          rw [show splitKeepEndsAux [] (c :: rest)
                = splitLinesKeepEnds (c :: rest) from rfl, hs] at h2
          simpa using h2
        simp [readFirstFastaInfo, hs, hc, hall, specStripSeq]

theorem metaFoldStays (v : List Char × List Char) :
    ∀ rest : List (List Char × List Char),
      rest.foldl
          (fun st f => if st.1 then (false, readFirstFastaInfo f.1 f.2) else st)
          (false, v)
        = (false, v) := by
  intro rest
  induction rest with
  | nil => rfl
  | cons f fs ih => simpa [List.foldl_cons] using ih

/-- C8: `basename` and `sequence` are derived solely from the first query
file (appending or changing later files never changes them); the basename is
the first file's name with its extension split off, and the sequence is the
first file's content with the first line discarded iff it starts with `'>'`
and every carriage-return and newline character removed. -/
theorem firstFileMetadata (f : List Char × List Char)
    (rest rest' : List (List Char × List Char)) :
    firstFileMetaLoop (f :: rest) = readFirstFastaInfo f.1 f.2
  ∧ firstFileMetaLoop (f :: rest) = firstFileMetaLoop (f :: rest')
  ∧ (readFirstFastaInfo f.1 f.2).1 = pySplitextRoot (pyBasename f.1)
  ∧ (readFirstFastaInfo f.1 f.2).2 = specStripSeq f.2 := by
  have hloop : ∀ r : List (List Char × List Char),
      firstFileMetaLoop (f :: r) = readFirstFastaInfo f.1 f.2 := by
    intro r
    unfold firstFileMetaLoop
    rw [List.foldl_cons]
    simp only [if_pos rfl, if_true]
    rw [metaFoldStays]
  exact ⟨hloop rest, by rw [hloop rest, hloop rest'], rfl,
    readFirstFastaInfo_snd f.1 f.2⟩

/-- Witness for `firstFileMetadata` at concrete files: the second file
differs but the metadata comes from the first. -/
theorem firstFileMetadataWitness :
    firstFileMetaLoop [("dir/seq.fa".toList, ">h\nAC\nGT\n".toList),
                       ("other.fa".toList, ">x\nTT\n".toList)]
      = readFirstFastaInfo "dir/seq.fa".toList ">h\nAC\nGT\n".toList
  ∧ firstFileMetaLoop [("dir/seq.fa".toList, ">h\nAC\nGT\n".toList),
                       ("other.fa".toList, ">x\nTT\n".toList)]
      = firstFileMetaLoop [("dir/seq.fa".toList, ">h\nAC\nGT\n".toList)]
  ∧ (readFirstFastaInfo "dir/seq.fa".toList ">h\nAC\nGT\n".toList).1
      = pySplitextRoot (pyBasename "dir/seq.fa".toList)
  ∧ (readFirstFastaInfo "dir/seq.fa".toList ">h\nAC\nGT\n".toList).2
      = specStripSeq ">h\nAC\nGT\n".toList :=
  firstFileMetadata ("dir/seq.fa".toList, ">h\nAC\nGT\n".toList)
    [("other.fa".toList, ">x\nTT\n".toList)] []

/-! ## Claim about the formatter and a missing scientific name -/

/-- C10: when the best hit's first description entry has no scientific name,
the summary's `scientific_name` is the null value, not an error: the JSON
document's fourth line renders it as `null`, and the third CSV field is the
literal unquoted string `None`. -/
theorem missingScinameRendersNullAndNone (r : ResultRecord)
    (h : r.scientific_name = none) :
    ((csvFields r).map csvEscape).get? 2 = some "None"
  ∧ (jsonDumpLines r).get? 3 = some "  \"scientific_name\": null," := by
  constructor
  · simp only [csvFields, h, List.map_cons, List.get?]
    rfl
  · simp only [jsonDumpLines, resultItems, h, jsonItemLines, List.cons_append,
      List.get?]
    rfl

/-- Witness for `missingScinameRendersNullAndNone` at a concrete summary
record without a scientific name. -/
theorem missingScinameRendersNullAndNoneWitness :
    ((csvFields { basename := "b", description := "d", scientific_name := none,
                  max_score := 100, total_score := 180, query_cover := "36%",
                  e_value := 1, percent_identity := "88.89%",
                  accession_length := 10, accession := "A1", query_length := 500,
                  sequence := "ACGT" }).map csvEscape).get? 2 = some "None"
  ∧ (jsonDumpLines { basename := "b", description := "d", scientific_name := none,
                     max_score := 100, total_score := 180, query_cover := "36%",
                     e_value := 1, percent_identity := "88.89%",
                     accession_length := 10, accession := "A1", query_length := 500,
                     sequence := "ACGT" }).get? 3
      = some "  \"scientific_name\": null," :=
  missingScinameRendersNullAndNone
    { basename := "b", description := "d", scientific_name := none,
      max_score := 100, total_score := 180, query_cover := "36%",
      e_value := 1, percent_identity := "88.89%", accession_length := 10,
      accession := "A1", query_length := 500, sequence := "ACGT" } rfl

end WebBlast
